import Mathlib

/-
Verification of the minievm JSON-RPC gateway startup code
(jsonrpc/jsonrpc.go) via a shallow embedding.

External effects (the comet websocket client construction and start, the
go-ethereum RPC server registration, and the TCP bind) are modelled by an
environment record that fixes the outcome of each effect; StartJSONRPC is
then a pure function from its configuration and that environment to a
result record capturing its return value together with its observable
effects (client obtained, namespaces registered, listener bound, whether a
lifecycle task was submitted to the errgroup).  The closure submitted to
the errgroup is modelled separately as serverLifecycleTask, a function of
which of its two wake signals (context cancellation, serve-loop error)
fires first and of the outcome of the HTTP close call.
-/

namespace MiniEVM.JSONRPC

/-- Errors are modelled by their message strings. -/
abbrev Err := String

/-- Durations in nanoseconds, mirroring Go time.Duration. -/
abbrev Duration := Nat

/-- One second in nanoseconds (Go time.Second). -/
def second : Duration := 1000000000

/-- The fields of config.JSONRPCConfig used by jsonrpc.go. -/
structure JSONRPCConfig where
  Address : String
  EnableUnsafeCORS : Bool
  HTTPTimeout : Duration
  HTTPIdleTimeout : Duration
  MaxOpenConnections : Int
  deriving Repr, DecidableEq

/-- The eth namespace constant. -/
def EthNamespace : String := "eth"

/-- The net namespace constant. -/
def NetNamespace : String := "net"

/-- The txpool namespace constant (declared, unused by the active list). -/
def TxPoolNamespace : String := "txpool"

/-- The API version constant. -/
def apiVersion : String := "1.0"

/-- The options bundle passed to rpcclient.NewWS in ConnectCometWS. -/
structure WSClientParams where
  rpcAddr : String
  endpoint : String
  maxReconnectAttempts : Nat
  readWait : Duration
  writeWait : Duration
  pingPeriod : Duration
  deriving Repr, DecidableEq

/-- The comet websocket client, identified by its construction parameters. -/
structure WSClient where
  params : WSClientParams
  deriving Repr, DecidableEq

/-- Outcomes of the two external steps inside ConnectCometWS:
the error returned by rpcclient.NewWS (none on success) and the error
returned by the OnStart call on the constructed client. -/
structure WSEnv where
  newWSErr : Option Err
  onStartErr : Option Err
  deriving Repr, DecidableEq

/-- Shallow embedding of ConnectCometWS (jsonrpc.go lines 172 to 202).
rpcclient.NewWS is called with MaxReconnectAttempts 256, ReadWait 0,
WriteWait 0 and PingPeriod 50 seconds; on a construction error the nil
client is returned (after logging).  When construction succeeds, a failed
OnStart is only logged and the client is returned regardless. -/
def ConnectCometWS (cometRPCAddr cometWSEndpoint : String) (env : WSEnv) :
    Option WSClient :=
  match env.newWSErr with
  | some _ => none
  | none =>
      some { params :=
        { rpcAddr := cometRPCAddr
          endpoint := cometWSEndpoint
          maxReconnectAttempts := 256
          readWait := 0
          writeWait := 0
          pingPeriod := 50 * second } }

/-- The three active service objects built in StartJSONRPC; the filter API
holds the comet websocket client it was given. -/
inductive Service where
  | ethAPI
  | filterAPI (wsClient : WSClient)
  | netAPI
  deriving Repr, DecidableEq

/-- One rpc.API entry of the apis slice. -/
structure API where
  Namespace : String
  Version : String
  Service : Service
  Public : Bool
  deriving Repr, DecidableEq

/-- The apis slice of StartJSONRPC (jsonrpc.go lines 67 to 93), in source
order: eth core API, eth filter API (holding the websocket client), net
API.  The txpool entry is commented out in the source. -/
def apis (cometWsClient : WSClient) : List API :=
  [ { Namespace := EthNamespace, Version := apiVersion
      Service := .ethAPI, Public := true }
  , { Namespace := EthNamespace, Version := apiVersion
      Service := .filterAPI cometWsClient, Public := true }
  , { Namespace := NetNamespace, Version := apiVersion
      Service := .netAPI, Public := true } ]

/-- Outcome of rpcServer.RegisterName for a given namespace and service
object (none means success), fixed by the environment. -/
structure RegEnv where
  registerErr : String → Service → Option Err

/-- The go-ethereum rpc.Server dispatcher, modelled by the list of
namespace-service pairs registered into it so far. -/
structure RPCServer where
  handlers : List (String × Service)
  deriving Repr, DecidableEq

/-- rpc.NewServer: a dispatcher with no registrations. -/
def RPCServer.new : RPCServer := ⟨[]⟩

/-- rpcServer.RegisterName: on success the pair is appended to the
dispatcher state, on failure the error is returned. -/
def registerName (env : RegEnv) (s : RPCServer) (ns : String) (svc : Service) :
    Except Err RPCServer :=
  match env.registerErr ns svc with
  | some e => .error e
  | none => .ok ⟨s.handlers ++ [(ns, svc)]⟩

/-- The registration loop of StartJSONRPC (jsonrpc.go lines 95 to 104):
entries are registered in order; the first failure stops the loop and its
error is recorded, leaving the dispatcher with the entries registered so
far.  Returns the final dispatcher state and the error, if any. -/
def registerAll (env : RegEnv) (s : RPCServer) :
    List API → RPCServer × Option Err
  | [] => (s, none)
  | api :: rest =>
      match registerName env s api.Namespace api.Service with
      | .error e => (s, some e)
      | .ok s2 => registerAll env s2 rest

/-- Outcome of net.Listen for a given address (none means the bind
succeeds), fixed by the environment. -/
structure NetEnv where
  bindErr : String → Option Err

/-- A net.Listener: either a raw listener from net.Listen or a
netutil.LimitListener wrapping one with a connection cap. -/
inductive Listener where
  | base (network addr : String)
  | limit (inner : Listener) (maxOpen : Int)
  deriving Repr, DecidableEq

/-- net.Listen on the tcp network. -/
def netListen (env : NetEnv) (network addr : String) : Except Err Listener :=
  match env.bindErr addr with
  | some e => .error e
  | none => .ok (.base network addr)

/-- Shallow embedding of listen (jsonrpc.go lines 157 to 169): an empty
address defaults to the conventional HTTP port, a bind failure is returned
immediately, and the listener is wrapped in a limit listener exactly when
MaxOpenConnections is positive. -/
def listen (env : NetEnv) (addr : String) (jsonRPCConfig : JSONRPCConfig) :
    Except Err Listener :=
  let addr := if addr = "" then ":http" else addr
  match netListen env "tcp" addr with
  | .error e => .error e
  | .ok ln =>
      .ok (if jsonRPCConfig.MaxOpenConnections > 0
           then .limit ln jsonRPCConfig.MaxOpenConnections
           else ln)

/-- The address that listen actually binds: the input address, with the
empty string replaced by the conventional HTTP port. -/
def effectiveAddr (addr : String) : String :=
  if addr = "" then ":http" else addr

/-- Full environment for a run of StartJSONRPC. -/
structure StartEnv where
  ws : WSEnv
  reg : RegEnv
  net : NetEnv

/-- The error message StartJSONRPC returns when ConnectCometWS yields a
nil client (jsonrpc.go line 59). -/
def errFailedConnect : Err := "failed to connect comet Websocket Server"

/-- Observable outcome of a call to StartJSONRPC: its returned error (none
means a nil error), the websocket client it obtained, the dispatcher state
at return (none when construction failed before rpc.NewServer), the bound
listener, and whether a lifecycle task was submitted to the errgroup. -/
structure StartResult where
  ret : Option Err
  cometWsClient : Option WSClient
  rpcServer : Option RPCServer
  listener : Option Listener
  goLaunched : Bool
  deriving Repr, DecidableEq

/-- Shallow embedding of StartJSONRPC (jsonrpc.go lines 47 to 153).
It connects to the comet websocket server at the hardcoded address,
returning an error on a nil client; registers the three active API entries
in order, returning the first registration error; binds the listener via
listen, returning any bind error; and otherwise submits the lifecycle task
to the errgroup and returns nil. -/
def StartJSONRPC (env : StartEnv) (jsonRPCConfig : JSONRPCConfig) :
    StartResult :=
  match ConnectCometWS "http://127.0.0.1:26657" "/websocket" env.ws with
  | none =>
      { ret := some errFailedConnect
        cometWsClient := none
        rpcServer := none
        listener := none
        goLaunched := false }
  | some cometWsClient =>
      let reg := registerAll env.reg RPCServer.new (apis cometWsClient)
      match reg.2 with
      | some e =>
          { ret := some e
            cometWsClient := some cometWsClient
            rpcServer := some reg.1
            listener := none
            goLaunched := false }
      | none =>
          match listen env.net jsonRPCConfig.Address jsonRPCConfig with
          | .error e =>
              { ret := some e
                cometWsClient := some cometWsClient
                rpcServer := some reg.1
                listener := none
                goLaunched := false }
          | .ok ln =>
              { ret := none
                cometWsClient := some cometWsClient
                rpcServer := some reg.1
                listener := some ln
                goLaunched := true }

/-- Which of the two wake signals of the lifecycle select fires first:
the context cancellation or an error delivered on the serve-error
channel. -/
inductive FirstSignal where
  | ctxDone
  | serveErr (e : Err)
  deriving Repr, DecidableEq

/-- Run environment for the lifecycle task: the first signal and the
outcome of httpSrv.Close (none means a nil error). -/
structure RunEnv where
  first : FirstSignal
  closeErr : Option Err
  deriving Repr, DecidableEq

/-- Observable outcome of the lifecycle task: the error it returns to the
errgroup and whether it called httpSrv.Close. -/
structure TaskOutcome where
  ret : Option Err
  closeCalled : Bool
  deriving Repr, DecidableEq

/-- Shallow embedding of the closure submitted to the errgroup
(jsonrpc.go lines 129 to 150): a two-way select between context
cancellation (return the Close outcome) and a serve-loop error (return
that error, without closing). -/
def serverLifecycleTask (env : RunEnv) : TaskOutcome :=
  match env.first with
  | .ctxDone => { ret := env.closeErr, closeCalled := true }
  | .serveErr e => { ret := some e, closeCalled := false }

/-- The websocket client StartJSONRPC obtains when construction succeeds:
the hardcoded comet address and path with the fixed reconnect policy. -/
def defaultWSClient : WSClient :=
  { params :=
    { rpcAddr := "http://127.0.0.1:26657"
      endpoint := "/websocket"
      maxReconnectAttempts := 256
      readWait := 0
      writeWait := 0
      pingPeriod := 50 * second } }

/-- Two consecutive calls of StartJSONRPC with the same inputs; the
function keeps no state between calls. -/
def startTwice (env : StartEnv) (cfg : JSONRPCConfig) :
    StartResult × StartResult :=
  (StartJSONRPC env cfg, StartJSONRPC env cfg)

/-- A sample configuration used in concrete evaluations. -/
def cfgSample : JSONRPCConfig :=
  { Address := "127.0.0.1:8545"
    EnableUnsafeCORS := false
    HTTPTimeout := 10 * second
    HTTPIdleTimeout := 120 * second
    MaxOpenConnections := 100 }

/-- Environment in which every external step succeeds. -/
def envAllOK : StartEnv :=
  { ws := { newWSErr := none, onStartErr := none }
    reg := { registerErr := fun _ _ => none }
    net := { bindErr := fun _ => none } }

/-- Environment in which the websocket client is constructed but its
OnStart call fails; everything else succeeds. -/
def envOnStartFails : StartEnv :=
  { ws := { newWSErr := none, onStartErr := some "websocket handshake failed" }
    reg := { registerErr := fun _ _ => none }
    net := { bindErr := fun _ => none } }

/-- Environment in which the second registration (the eth filter API)
fails; everything else succeeds. -/
def envRegFails : StartEnv :=
  { ws := { newWSErr := none, onStartErr := none }
    reg := { registerErr := fun _ svc =>
              match svc with
              | .filterAPI _ => some "duplicate method name"
              | _ => none }
    net := { bindErr := fun _ => none } }

/-- Environment in which the TCP bind fails; everything else succeeds. -/
def envBindFails : StartEnv :=
  { ws := { newWSErr := none, onStartErr := none }
    reg := { registerErr := fun _ _ => none }
    net := { bindErr := fun _ => some "address already in use" } }

/-- Environment in which rpcclient.NewWS fails. -/
def envNewWSFails : StartEnv :=
  { ws := { newWSErr := some "malformed endpoint", onStartErr := none }
    reg := { registerErr := fun _ _ => none }
    net := { bindErr := fun _ => none } }

/-- When rpcclient.NewWS succeeds, ConnectCometWS at the hardcoded comet
address yields exactly the default client. -/
lemma connectCometWS_some (env : WSEnv) (h : env.newWSErr = none) :
    ConnectCometWS "http://127.0.0.1:26657" "/websocket" env =
      some defaultWSClient := by
  simp [ConnectCometWS, h, defaultWSClient]

/-- When rpcclient.NewWS fails, ConnectCometWS yields the nil client. -/
lemma connectCometWS_none (env : WSEnv) (e : Err) (h : env.newWSErr = some e) :
    ConnectCometWS "http://127.0.0.1:26657" "/websocket" env = none := by
  simp [ConnectCometWS, h]

/-- Evaluation of listen in terms of the bind outcome at the effective
address. -/
lemma listen_eq (env : NetEnv) (addr : String) (cfg : JSONRPCConfig) :
    listen env addr cfg =
      match env.bindErr (effectiveAddr addr) with
      | some e => .error e
      | none =>
          .ok (if cfg.MaxOpenConnections > 0
               then .limit (.base "tcp" (effectiveAddr addr))
                      cfg.MaxOpenConnections
               else .base "tcp" (effectiveAddr addr)) := by
  cases h : env.bindErr (effectiveAddr addr) with
  | some e =>
      simp [listen, netListen, effectiveAddr] at h ⊢
      simp [h]
  | none =>
      simp [listen, netListen, effectiveAddr] at h ⊢
      simp [h]

/-- The registration loop over the active API list succeeds exactly when
every entry registers without error. -/
lemma registerAll_apis_none_iff (env : RegEnv) (c : WSClient) :
    (registerAll env RPCServer.new (apis c)).2 = none ↔
      ∀ api ∈ apis c, env.registerErr api.Namespace api.Service = none := by
  cases h1 : env.registerErr EthNamespace .ethAPI with
  | some e => simp [registerAll, registerName, apis, h1]
  | none =>
    cases h2 : env.registerErr EthNamespace (.filterAPI c) with
    | some e => simp [registerAll, registerName, apis, h1, h2]
    | none =>
      cases h3 : env.registerErr NetNamespace .netAPI with
      | some e => simp [registerAll, registerName, apis, h1, h2, h3]
      | none => simp [registerAll, registerName, apis, h1, h2, h3]

/-- StartJSONRPC when the websocket client comes back nil. -/
lemma startJSONRPC_eq_none_client (env : StartEnv) (cfg : JSONRPCConfig)
    (hc : ConnectCometWS "http://127.0.0.1:26657" "/websocket" env.ws = none) :
    StartJSONRPC env cfg =
      { ret := some errFailedConnect
        cometWsClient := none
        rpcServer := none
        listener := none
        goLaunched := false } := by
  simp [StartJSONRPC, hc]

/-- StartJSONRPC when the client is obtained but a registration fails. -/
lemma startJSONRPC_eq_reg_fail (env : StartEnv) (cfg : JSONRPCConfig)
    (c : WSClient) (e : Err)
    (hc : ConnectCometWS "http://127.0.0.1:26657" "/websocket" env.ws = some c)
    (hreg : (registerAll env.reg RPCServer.new (apis c)).2 = some e) :
    StartJSONRPC env cfg =
      { ret := some e
        cometWsClient := some c
        rpcServer := some (registerAll env.reg RPCServer.new (apis c)).1
        listener := none
        goLaunched := false } := by
  simp [StartJSONRPC, hc, hreg]

/-- StartJSONRPC when registration succeeds but the bind fails. -/
lemma startJSONRPC_eq_bind_fail (env : StartEnv) (cfg : JSONRPCConfig)
    (c : WSClient) (e : Err)
    (hc : ConnectCometWS "http://127.0.0.1:26657" "/websocket" env.ws = some c)
    (hreg : (registerAll env.reg RPCServer.new (apis c)).2 = none)
    (hln : listen env.net cfg.Address cfg = .error e) :
    StartJSONRPC env cfg =
      { ret := some e
        cometWsClient := some c
        rpcServer := some (registerAll env.reg RPCServer.new (apis c)).1
        listener := none
        goLaunched := false } := by
  simp [StartJSONRPC, hc, hreg, hln]

/-- StartJSONRPC when every startup step succeeds. -/
lemma startJSONRPC_eq_ok (env : StartEnv) (cfg : JSONRPCConfig)
    (c : WSClient) (ln : Listener)
    (hc : ConnectCometWS "http://127.0.0.1:26657" "/websocket" env.ws = some c)
    (hreg : (registerAll env.reg RPCServer.new (apis c)).2 = none)
    (hln : listen env.net cfg.Address cfg = .ok ln) :
    StartJSONRPC env cfg =
      { ret := none
        cometWsClient := some c
        rpcServer := some (registerAll env.reg RPCServer.new (apis c)).1
        listener := some ln
        goLaunched := true } := by
  simp [StartJSONRPC, hc, hreg, hln]

/-- The websocket client recorded by StartJSONRPC is exactly the result of
ConnectCometWS, whatever the later steps do. -/
lemma startJSONRPC_cometWsClient (env : StartEnv) (cfg : JSONRPCConfig) :
    (StartJSONRPC env cfg).cometWsClient =
      ConnectCometWS "http://127.0.0.1:26657" "/websocket" env.ws := by
  cases hc : ConnectCometWS "http://127.0.0.1:26657" "/websocket" env.ws with
  | none => rw [startJSONRPC_eq_none_client env cfg hc]
  | some c =>
    cases hreg : (registerAll env.reg RPCServer.new (apis c)).2 with
    | some e => rw [startJSONRPC_eq_reg_fail env cfg c e hc hreg]
    | none =>
      cases hln : listen env.net cfg.Address cfg with
      | error e => rw [startJSONRPC_eq_bind_fail env cfg c e hc hreg hln]
      | ok ln => rw [startJSONRPC_eq_ok env cfg c ln hc hreg hln]

/-- C1 counterexample: with the comet websocket client constructed but its
OnStart call failing, and every later step succeeding, StartJSONRPC
returns a nil error and still launches the server — the OnStart failure is
only logged, so startup does not abort with an error as the claim
states. -/
theorem C1_counterexample :
    envOnStartFails.ws.onStartErr.isSome = true ∧
    (StartJSONRPC envOnStartFails cfgSample).ret = none ∧
    (StartJSONRPC envOnStartFails cfgSample).goLaunched = true :=
  ⟨rfl, rfl, rfl⟩

/-- C1 (amended): StartJSONRPC returns a nil error exactly when the
websocket client construction succeeds, every namespace registration
succeeds, and the bind succeeds; a failure of the OnStart step after
construction does not make StartJSONRPC return an error (it is absent
from the right-hand side). -/
theorem C1_amended_fatal_failures (env : StartEnv) (cfg : JSONRPCConfig) :
    (StartJSONRPC env cfg).ret = none ↔
      env.ws.newWSErr = none ∧
      (∀ api ∈ apis defaultWSClient,
        env.reg.registerErr api.Namespace api.Service = none) ∧
      env.net.bindErr (effectiveAddr cfg.Address) = none := by
  cases hws : env.ws.newWSErr with
  | some e =>
      rw [startJSONRPC_eq_none_client env cfg (connectCometWS_none env.ws e hws)]
      simp [hws, errFailedConnect]
  | none =>
      have hc := connectCometWS_some env.ws hws
      cases hreg : (registerAll env.reg RPCServer.new (apis defaultWSClient)).2 with
      | some e =>
          rw [startJSONRPC_eq_reg_fail env cfg defaultWSClient e hc hreg]
          have hnall : ¬ (∀ api ∈ apis defaultWSClient,
              env.reg.registerErr api.Namespace api.Service = none) := by
            rw [← registerAll_apis_none_iff]
            simp [hreg]
          simp [hws, hnall]
      | none =>
          have hregAll := (registerAll_apis_none_iff env.reg defaultWSClient).mp hreg
          cases hbind : env.net.bindErr (effectiveAddr cfg.Address) with
          | some e =>
              have hln : listen env.net cfg.Address cfg = .error e := by
                simp [listen_eq, hbind]
              rw [startJSONRPC_eq_bind_fail env cfg defaultWSClient e hc hreg hln]
              simp [hws, hregAll, hbind]
          | none =>
              have hln : listen env.net cfg.Address cfg =
                  .ok (if cfg.MaxOpenConnections > 0
                       then .limit (.base "tcp" (effectiveAddr cfg.Address))
                              cfg.MaxOpenConnections
                       else .base "tcp" (effectiveAddr cfg.Address)) := by
                simp [listen_eq, hbind]
              rw [startJSONRPC_eq_ok env cfg defaultWSClient _ hc hreg hln]
              exact iff_of_true rfl ⟨rfl, hregAll, rfl⟩

/-- Witness for the amended C1: in the all-success environment the
characterization yields a nil returned error. -/
theorem C1_witness :
    (StartJSONRPC envAllOK cfgSample).ret = none :=
  (C1_amended_fatal_failures envAllOK cfgSample).mpr
    ⟨rfl, fun _ _ => rfl, rfl⟩

/-- C2: when the context cancellation fires first, the lifecycle task
closes the HTTP server and returns exactly the outcome of that close call,
whatever it is — never a serve-loop error. -/
theorem C2_cancel_returns_close_outcome (closeErr : Option Err) :
    serverLifecycleTask { first := .ctxDone, closeErr := closeErr } =
      { ret := closeErr, closeCalled := true } := rfl

/-- C3: when the client is obtained but some RegisterName call fails, the
whole startup fails with that error: StartJSONRPC returns it, binds no
listener and submits no task, so no dispatcher is ever served. -/
theorem C3_registration_failure_fatal (env : StartEnv) (cfg : JSONRPCConfig)
    (e : Err) (hws : env.ws.newWSErr = none)
    (hfail : (registerAll env.reg RPCServer.new (apis defaultWSClient)).2
      = some e) :
    (StartJSONRPC env cfg).ret = some e ∧
    (StartJSONRPC env cfg).listener = none ∧
    (StartJSONRPC env cfg).goLaunched = false := by
  rw [startJSONRPC_eq_reg_fail env cfg defaultWSClient e
    (connectCometWS_some env.ws hws) hfail]
  exact ⟨rfl, rfl, rfl⟩

/-- Witness for C3 at a concrete environment in which the eth filter API
registration fails. -/
theorem C3_witness :
    (StartJSONRPC envRegFails cfgSample).ret = some "duplicate method name" ∧
    (StartJSONRPC envRegFails cfgSample).listener = none ∧
    (StartJSONRPC envRegFails cfgSample).goLaunched = false :=
  C3_registration_failure_fatal envRegFails cfgSample
    "duplicate method name" rfl rfl

/-- C4 counterexample: a second call of StartJSONRPC after a successful
one is not rejected — with every step succeeding again it returns a nil
error and submits a fresh lifecycle task, rather than an
AlreadyStartedError. -/
theorem C4_counterexample :
    (startTwice envAllOK cfgSample).2.ret = none ∧
    (startTwice envAllOK cfgSample).2.goLaunched = true :=
  ⟨rfl, rfl⟩

/-- C4 (amended): StartJSONRPC keeps no lifecycle state, so a repeated
call is indistinguishable from a first call; moreover every error it can
return originates from the connect, registration or bind step — there is
no AlreadyStartedError rejection path. -/
theorem C4_amended_no_restart_guard (env : StartEnv) (cfg : JSONRPCConfig) :
    (startTwice env cfg).2 = (startTwice env cfg).1 ∧
    ∀ e : Err, (StartJSONRPC env cfg).ret = some e →
      e = errFailedConnect ∨
      (registerAll env.reg RPCServer.new (apis defaultWSClient)).2 = some e ∨
      env.net.bindErr (effectiveAddr cfg.Address) = some e := by
  refine ⟨rfl, ?_⟩
  intro e he
  cases hws : env.ws.newWSErr with
  | some e2 =>
      left
      rw [startJSONRPC_eq_none_client env cfg
        (connectCometWS_none env.ws e2 hws)] at he
      exact (Option.some.inj he).symm
  | none =>
      have hc := connectCometWS_some env.ws hws
      cases hreg : (registerAll env.reg RPCServer.new (apis defaultWSClient)).2 with
      | some e2 =>
          right; left
          rw [startJSONRPC_eq_reg_fail env cfg defaultWSClient e2 hc hreg] at he
          exact he
      | none =>
          cases hbind : env.net.bindErr (effectiveAddr cfg.Address) with
          | some e2 =>
              right; right
              have hln : listen env.net cfg.Address cfg = .error e2 := by
                simp [listen_eq, hbind]
              rw [startJSONRPC_eq_bind_fail env cfg defaultWSClient e2 hc hreg hln]
                at he
              exact he
          | none =>
              have hln : listen env.net cfg.Address cfg =
                  .ok (if cfg.MaxOpenConnections > 0
                       then .limit (.base "tcp" (effectiveAddr cfg.Address))
                              cfg.MaxOpenConnections
                       else .base "tcp" (effectiveAddr cfg.Address)) := by
                simp [listen_eq, hbind]
              rw [startJSONRPC_eq_ok env cfg defaultWSClient _ hc hreg hln] at he
              exact Option.noConfusion he

/-- Witness for the amended C4: a repeated call with the address now in
use reports the bind error, one of the three startup-step errors. -/
theorem C4_witness :
    (startTwice envBindFails cfgSample).2 =
      (startTwice envBindFails cfgSample).1 ∧
    ("address already in use" = errFailedConnect ∨
      (registerAll envBindFails.reg RPCServer.new (apis defaultWSClient)).2
        = some "address already in use" ∨
      envBindFails.net.bindErr (effectiveAddr cfgSample.Address)
        = some "address already in use") :=
  ⟨(C4_amended_no_restart_guard envBindFails cfgSample).1,
   (C4_amended_no_restart_guard envBindFails cfgSample).2
     "address already in use" rfl⟩

/-- C5: when the bind fails, StartJSONRPC returns that error at once, no
task is submitted to the errgroup and no listener is held. -/
theorem C5_bind_failure_no_background_work (env : StartEnv)
    (cfg : JSONRPCConfig) (e : Err)
    (hws : env.ws.newWSErr = none)
    (hreg : (registerAll env.reg RPCServer.new (apis defaultWSClient)).2
      = none)
    (hbind : env.net.bindErr (effectiveAddr cfg.Address) = some e) :
    (StartJSONRPC env cfg).ret = some e ∧
    (StartJSONRPC env cfg).goLaunched = false ∧
    (StartJSONRPC env cfg).listener = none := by
  have hln : listen env.net cfg.Address cfg = .error e := by
    simp [listen_eq, hbind]
  rw [startJSONRPC_eq_bind_fail env cfg defaultWSClient e
    (connectCometWS_some env.ws hws) hreg hln]
  exact ⟨rfl, rfl, rfl⟩

/-- Witness for C5 at a concrete environment whose bind fails. -/
theorem C5_witness :
    (StartJSONRPC envBindFails cfgSample).ret = some "address already in use" ∧
    (StartJSONRPC envBindFails cfgSample).goLaunched = false ∧
    (StartJSONRPC envBindFails cfgSample).listener = none :=
  C5_bind_failure_no_background_work envBindFails cfgSample
    "address already in use" rfl rfl rfl

/-- C6: when the serve loop delivers an error before the context is
cancelled, the lifecycle task returns exactly that error and does not call
Close on the HTTP server. -/
theorem C6_serve_error_no_close (e : Err) (closeErr : Option Err) :
    serverLifecycleTask { first := .serveErr e, closeErr := closeErr } =
      { ret := some e, closeCalled := false } := rfl

/-- C7: when ConnectCometWS yields the nil client, StartJSONRPC returns
the connect-failure error before any registration happens (no dispatcher
is even created), no listener is bound and no task is submitted. -/
theorem C7_nil_client_fatal (env : StartEnv) (cfg : JSONRPCConfig)
    (h : ConnectCometWS "http://127.0.0.1:26657" "/websocket" env.ws = none) :
    (StartJSONRPC env cfg).ret = some errFailedConnect ∧
    (StartJSONRPC env cfg).rpcServer = none ∧
    (StartJSONRPC env cfg).listener = none ∧
    (StartJSONRPC env cfg).goLaunched = false := by
  rw [startJSONRPC_eq_none_client env cfg h]
  exact ⟨rfl, rfl, rfl, rfl⟩

/-- Witness for C7 at a concrete environment whose client construction
fails. -/
theorem C7_witness :
    (StartJSONRPC envNewWSFails cfgSample).ret = some errFailedConnect ∧
    (StartJSONRPC envNewWSFails cfgSample).rpcServer = none ∧
    (StartJSONRPC envNewWSFails cfgSample).listener = none ∧
    (StartJSONRPC envNewWSFails cfgSample).goLaunched = false :=
  C7_nil_client_fatal envNewWSFails cfgSample rfl

/-- C8: listen treats the empty address as the conventional HTTP port,
returns a bind error immediately, wraps the raw listener in a limit
listener exactly when MaxOpenConnections is positive, and returns the raw
listener when MaxOpenConnections is zero. -/
theorem C8_listen_behavior (env : NetEnv) (addr : String)
    (cfg : JSONRPCConfig) :
    listen env "" cfg = listen env ":http" cfg ∧
    (∀ e, env.bindErr (effectiveAddr addr) = some e →
      listen env addr cfg = .error e) ∧
    (env.bindErr (effectiveAddr addr) = none →
      0 < cfg.MaxOpenConnections →
      listen env addr cfg =
        .ok (.limit (.base "tcp" (effectiveAddr addr))
          cfg.MaxOpenConnections)) ∧
    (env.bindErr (effectiveAddr addr) = none →
      cfg.MaxOpenConnections = 0 →
      listen env addr cfg = .ok (.base "tcp" (effectiveAddr addr))) := by
  refine ⟨rfl, ?_, ?_, ?_⟩
  · intro e h
    simp [listen_eq, h]
  · intro h hpos
    simp [listen_eq, h, hpos]
  · intro h h0
    simp [listen_eq, h, h0]

/-- Witness for C8 at a concrete failing bind. -/
theorem C8_witness :
    envBindFails.net.bindErr (effectiveAddr "") = some "address already in use" ∧
    listen envBindFails.net "" cfgSample = .error "address already in use" :=
  ⟨rfl, (C8_listen_behavior envBindFails.net "" cfgSample).2.1
    "address already in use" rfl⟩

/-- C9: the websocket client StartJSONRPC holds does not depend on the
JSON-RPC configuration at all, and on successful construction it is the
client for the hardcoded address http://127.0.0.1:26657 and path
/websocket with a reconnect budget of 256 attempts, read and write idle
timeouts of zero, and a 50-second keepalive ping interval. -/
theorem C9_fixed_upstream_policy (env : StartEnv)
    (cfg cfg2 : JSONRPCConfig) :
    (StartJSONRPC env cfg).cometWsClient =
      (StartJSONRPC env cfg2).cometWsClient ∧
    (env.ws.newWSErr = none →
      (StartJSONRPC env cfg).cometWsClient = some defaultWSClient) ∧
    defaultWSClient.params.rpcAddr = "http://127.0.0.1:26657" ∧
    defaultWSClient.params.endpoint = "/websocket" ∧
    defaultWSClient.params.maxReconnectAttempts = 256 ∧
    defaultWSClient.params.readWait = 0 ∧
    defaultWSClient.params.writeWait = 0 ∧
    defaultWSClient.params.pingPeriod = 50 * second := by
  refine ⟨?_, ?_, rfl, rfl, rfl, rfl, rfl, rfl⟩
  · rw [startJSONRPC_cometWsClient, startJSONRPC_cometWsClient]
  · intro h
    rw [startJSONRPC_cometWsClient, connectCometWS_some env.ws h]

/-- Witness for C9 at a concrete successful environment. -/
theorem C9_witness :
    (StartJSONRPC envAllOK cfgSample).cometWsClient = some defaultWSClient :=
  (C9_fixed_upstream_policy envAllOK cfgSample cfgSample).2.1 rfl

/-- C10: when the connect, every registration and the bind all succeed,
StartJSONRPC itself returns a nil error, having submitted the lifecycle
task to the errgroup and bound the listener; the serve or shutdown outcome
is carried only by that task (serverLifecycleTask), never by this return
value. -/
theorem C10_success_returns_nil (env : StartEnv) (cfg : JSONRPCConfig)
    (hws : env.ws.newWSErr = none)
    (hreg : (registerAll env.reg RPCServer.new (apis defaultWSClient)).2
      = none)
    (hbind : env.net.bindErr (effectiveAddr cfg.Address) = none) :
    (StartJSONRPC env cfg).ret = none ∧
    (StartJSONRPC env cfg).goLaunched = true ∧
    (StartJSONRPC env cfg).listener =
      some (if cfg.MaxOpenConnections > 0
            then .limit (.base "tcp" (effectiveAddr cfg.Address))
                   cfg.MaxOpenConnections
            else .base "tcp" (effectiveAddr cfg.Address)) := by
  have hln : listen env.net cfg.Address cfg =
      .ok (if cfg.MaxOpenConnections > 0
           then .limit (.base "tcp" (effectiveAddr cfg.Address))
                  cfg.MaxOpenConnections
           else .base "tcp" (effectiveAddr cfg.Address)) := by
    simp [listen_eq, hbind]
  rw [startJSONRPC_eq_ok env cfg defaultWSClient _
    (connectCometWS_some env.ws hws) hreg hln]
  exact ⟨rfl, rfl, rfl⟩

/-- Witness for C10 at a concrete all-success environment. -/
theorem C10_witness :
    (StartJSONRPC envAllOK cfgSample).ret = none ∧
    (StartJSONRPC envAllOK cfgSample).goLaunched = true ∧
    (StartJSONRPC envAllOK cfgSample).listener =
      some (if cfgSample.MaxOpenConnections > 0
            then .limit (.base "tcp" (effectiveAddr cfgSample.Address))
                   cfgSample.MaxOpenConnections
            else .base "tcp" (effectiveAddr cfgSample.Address)) :=
  C10_success_returns_nil envAllOK cfgSample rfl rfl rfl

end MiniEVM.JSONRPC
